import Mathlib

/-!
Shallow embedding of `src/DateCollator.js` from the repository
MarkMYoung/DateCollator, together with theorems settling the behavioral
claims about the comparator.

Modelling conventions:
- JavaScript machine numbers that occur here (date components, their
  differences, comparison results) are always integers, so they are
  embedded as `Int`.
- Configuration option values are embedded as `JSVal`: a scalar
  (string, integer number, boolean, null, undefined) or a flat array of
  scalars.  This covers every value category the constructor inspects
  (`Array.isArray`, truthiness, strict equality against the tag strings).
- A host `Date` is embedded as `JSDate`: the tuple of results of the
  `get*()` accessor family (`localView`), the tuple of results of the
  `getUTC*()` accessor family (`utcView`), and the timezone portion of
  its `toString` rendering (`tzSuffix`).  `JSDate.WF` records the ranges
  the host guarantees for the accessors of a valid `Date`.
- Fallible code is embedded with `Except JSErr`; `JSErr` records which
  JavaScript error class is thrown (messages are commented at each
  construction site).
-/

deriving instance DecidableEq for Except

/-- Scalar JavaScript values: strings, (integer) numbers, booleans,
`null` and `undefined`. -/
inductive JSPrim where
  | str (s : String)
  | num (n : Int)
  | bool (b : Bool)
  | nullV
  | undef
deriving DecidableEq

/-- JavaScript values inspected by the constructor: a scalar or a flat
array of scalars. -/
inductive JSVal where
  | prim (p : JSPrim)
  | arr (elems : List JSPrim)
deriving DecidableEq

/-- JavaScript truthiness of a scalar: `""`, `0`, `false`, `null` and
`undefined` are falsy; every other scalar is truthy. -/
def JSPrim.truthy : JSPrim → Bool
  | .str s => decide (s ≠ "")
  | .num n => decide (n ≠ 0)
  | .bool b => b
  | .nullV => false
  | .undef => false

/-- JavaScript truthiness of a value; arrays are objects and objects are
always truthy (in particular `[]` is truthy). -/
def JSVal.truthy : JSVal → Bool
  | .prim p => p.truthy
  | .arr _ => true

/-- `Array.isArray`. -/
def JSVal.isArray : JSVal → Bool
  | .arr _ => true
  | .prim _ => false

/-- The elements of an array value (only consulted after `isArray`). -/
def JSVal.elems : JSVal → List JSPrim
  | .arr es => es
  | .prim _ => []

/-- `Object.values( DateCollator.DateSensitivity )`, in declared order
(source lines 78-86). -/
def dateSensitivityValues : List String :=
  ["era", "year", "month", "weekday", "day", "dayPeriod", "hour", "minute",
   "second", "fractionalSecond"]

/-- Default for `options.dateSensitivity` (source lines 63-64). -/
def defaultDateSensitivity : List String :=
  ["year", "month", "day", "hour", "minute", "second", "fractionalSecond"]

/-- `Object.values( DateCollator.DateSensitivity ).includes( e )`: the
element is one of the ten tag strings (strict equality, so a non-string
never matches). -/
def recognizedSensitivity : JSPrim → Bool
  | .str s => decide (s ∈ dateSensitivityValues)
  | _ => false

/-- `Object.values( DateCollator.DateUsage ).includes( u )` for the usage
value (source lines 87-88): the value is the string `local` or `utc`. -/
def recognizedUsage (u : JSVal) : Bool :=
  decide (u = JSVal.prim (.str "local")) || decide (u = JSVal.prim (.str "utc"))

/-- JavaScript error classes thrown by the embedded code.  The message of
each raised error is recorded in a comment at the raise site. -/
inductive JSErr where
  | typeError
  | rangeError
  | referenceError
  | genericError
deriving DecidableEq

/-- The `options` argument of the constructor: an object with the two
fields the code reads (an absent field reads as `undefined`). -/
structure JSOptions where
  dateSensitivity : JSVal
  dateUsage : JSVal
deriving DecidableEq

/-- The validated configuration kept in `this.hidden.options`: the raw
element list of the sensitivity array plus the raw usage value. -/
structure Config where
  dateSensitivity : List JSPrim
  dateUsage : JSVal
deriving DecidableEq

/-- The `DateCollator` constructor (source lines 56-77).  `none` is a
missing or falsy `options` argument.  Defaults are applied through `||`,
so a supplied falsy field also receives the default.  When the array
contains an unrecognized element the source reaches
`throw new RangeError( ... ${eachDateSensitivity} ... )` on line 74, but
`eachDateSensitivity` is the parameter of the `.some` callback and is not
in scope there, so evaluating the template literal of the message throws
`ReferenceError: eachDateSensitivity is not defined` before any
`RangeError` is constructed; the embedding reproduces that behavior.
This is the validation body of the constructor (source lines 67-76),
applied to the defaulted `dateSensitivity` and `dateUsage` values. -/
def validate (sensVal usageVal : JSVal) : Except JSErr Config :=
  if sensVal.isArray = false then
    -- TypeError: DateCollator options property dateSensitivity must be an array.
    Except.error JSErr.typeError
  else if sensVal.elems.any (fun e => !(recognizedSensitivity e)) then
    -- ReferenceError: eachDateSensitivity is not defined (see the doc comment).
    Except.error JSErr.referenceError
  else if recognizedUsage usageVal = false then
    -- RangeError: Value ... out of range for DateCollator options property dateUsage.
    Except.error JSErr.rangeError
  else
    Except.ok ⟨sensVal.elems, usageVal⟩

/-- The `DateCollator` constructor: apply the `||` defaults of source
lines 62-66, then validate. -/
def construct (options : Option JSOptions) : Except JSErr Config :=
  let opts := options.getD ⟨JSVal.prim .undef, JSVal.prim .undef⟩
  validate
    (if JSVal.truthy opts.dateSensitivity then opts.dateSensitivity
      else JSVal.arr (defaultDateSensitivity.map JSPrim.str))
    (if JSVal.truthy opts.dateUsage then opts.dateUsage
      else JSVal.prim (.str "local"))

/-- One accessor family of a host `Date`: the integer results of
`getFullYear`, `getMonth`, `getDate`, `getDay`, `getHours`, `getMinutes`,
`getSeconds` and `getMilliseconds` (or their `getUTC*` counterparts).
Following the source API, `date` is the day of the month and `day` is the
day of the week. -/
structure DateView where
  fullYear : Int
  month : Int
  date : Int
  day : Int
  hours : Int
  minutes : Int
  seconds : Int
  milliseconds : Int
deriving DecidableEq

/-- The component ranges the host guarantees for a valid `Date`. -/
def DateView.WF (v : DateView) : Prop :=
  0 ≤ v.month ∧ v.month ≤ 11 ∧ 1 ≤ v.date ∧ v.date ≤ 31 ∧
  0 ≤ v.day ∧ v.day ≤ 6 ∧ 0 ≤ v.hours ∧ v.hours ≤ 23 ∧
  0 ≤ v.minutes ∧ v.minutes ≤ 59 ∧ 0 ≤ v.seconds ∧ v.seconds ≤ 59 ∧
  0 ≤ v.milliseconds ∧ v.milliseconds ≤ 999

instance (v : DateView) : Decidable v.WF := by
  unfold DateView.WF; infer_instance

/-- A valid host `Date`: its local accessor family, its UTC accessor
family, and the timezone portion of its `toString` rendering (for
example " GMT-0500 (Central Daylight Time)"). -/
structure JSDate where
  localView : DateView
  utcView : DateView
  tzSuffix : String
deriving DecidableEq

/-- Well-formedness of a valid `Date`: both views are in range. -/
def JSDate.WF (d : JSDate) : Prop := d.localView.WF ∧ d.utcView.WF

instance (d : JSDate) : Decidable d.WF := by
  unfold JSDate.WF; infer_instance

/-- ECMAScript weekday names used by `Date.prototype.toString`
(`getDay() = 0` is Sunday). -/
def weekdayAbbrev (day : Int) : String :=
  if day = 0 then "Sun" else if day = 1 then "Mon" else if day = 2 then "Tue"
  else if day = 3 then "Wed" else if day = 4 then "Thu" else if day = 5 then "Fri"
  else if day = 6 then "Sat" else ""

/-- ECMAScript month names used by `Date.prototype.toString`
(`getMonth() = 0` is January). -/
def monthAbbrev (month : Int) : String :=
  if month = 0 then "Jan" else if month = 1 then "Feb" else if month = 2 then "Mar"
  else if month = 3 then "Apr" else if month = 4 then "May" else if month = 5 then "Jun"
  else if month = 6 then "Jul" else if month = 7 then "Aug" else if month = 8 then "Sep"
  else if month = 9 then "Oct" else if month = 10 then "Nov" else if month = 11 then "Dec"
  else ""

/-- Zero padding to two digits, as in `Date.prototype.toString`. -/
def pad2 (n : Int) : String :=
  if n < 10 then "0" ++ toString n else toString n

/-- Zero padding of a year magnitude to four digits. -/
def pad4 (n : Nat) : String :=
  String.mk (List.replicate (4 - (toString n).length) '0') ++ toString n

/-- Year rendering of `Date.prototype.toString`: sign, then the magnitude
padded to at least four digits. -/
def padYear (y : Int) : String :=
  if y < 0 then "-" ++ pad4 (-y).toNat else pad4 y.toNat

/-- Everything after the weekday name in the `Date.prototype.toString`
rendering: month name, day of month, year, time of day, timezone. -/
def jsDateRest (d : JSDate) : String :=
  " " ++ monthAbbrev d.localView.month ++ " " ++ pad2 d.localView.date ++ " "
    ++ padYear d.localView.fullYear ++ " " ++ pad2 d.localView.hours ++ ":"
    ++ pad2 d.localView.minutes ++ ":" ++ pad2 d.localView.seconds ++ d.tzSuffix

/-- `String( date )` for a valid `Date`, per `Date.prototype.toString`:
for example "Mon Mar 23 2020 09:00:00 GMT-0500 (Central Daylight Time)".
It always begins with the three letter weekday name of the local view. -/
def jsDateToString (d : JSDate) : String :=
  weekdayAbbrev d.localView.day ++ jsDateRest d

/-- One argument of `compareUnbound`, classified as the source classifies
it on lines 130-131: a valid `Date`, an invalid `Date` (a `Date` whose
`getTime()` is `NaN`), `null`, absent (`undefined`), or any other value
carried as its `String( value )` rendering. -/
inductive CompareInput where
  | validDate (d : JSDate)
  | invalidDate
  | nullV
  | undef
  | other (s : String)
deriving DecidableEq

/-- `String( value )` for each comparison input (source lines 232-233).
`String( invalidDate )` is "Invalid Date"; `String( null )` is "null";
`String( undefined )` is "undefined". -/
def displayString : CompareInput → String
  | .validDate d => jsDateToString d
  | .invalidDate => "Invalid Date"
  | .nullV => "null"
  | .undef => "undefined"
  | .other s => s

/-- JavaScript string comparison `<` is lexicographic on the code units;
every string produced here is ASCII, so this is lexicographic comparison
of the codepoints. -/
def lexLt : List Char → List Char → Bool
  | [], [] => false
  | [], _ :: _ => true
  | _ :: _, [] => false
  | a :: as, b :: bs =>
    if a.toNat < b.toNat then true
    else if b.toNat < a.toNat then false
    else lexLt as bs

/-- The string fallback of source lines 232-236:
`left < right ? -1 : left > right ? +1 : 0`. -/
def jsStringCompareSign (leftString rightString : String) : Int :=
  if lexLt leftString.data rightString.data then -1
  else if lexLt rightString.data leftString.data then 1
  else 0

/-- `Math.min( Math.max( -1, difference ), +1 )` (source line 239). -/
def clampInt (difference : Int) : Int := min (max (-1) difference) 1

/-- Coercion of the accumulator back to a number for the final clamp; the
accumulator produced by the reducer is always a number. -/
def JSVal.numOf : JSVal → Int
  | .prim (.num n) => n
  | _ => 0

/-- The reducer of source lines 113-128: it raises a `TypeError` when the
accumulated value is not a number, and otherwise replaces a zero
accumulator by the subtraction of the pair. -/
def datePartReducer (difference : JSVal) (partPair : Int × Int) : Except JSErr JSVal :=
  match difference with
  | .prim (.num n) =>
    .ok (.prim (.num (if n = 0 then partPair.1 - partPair.2 else n)))
  | _ =>
    -- TypeError: Initial value must be a number (or Number).
    .error JSErr.typeError

/-- One element of the `.map` callback of source lines 135-227: the
nested `switch` on `dateUsage` and then on the sensitivity tag, yielding
`[leftComponent, rightComponent]`.  `Math.floor( hours / 12 )` is floor
division; `Math.sign` is `Int.sign`.  A JavaScript `switch` compares with
strict equality, embedded as the equality chain below. -/
def datePartPair (dateUsage : JSVal) (eachDateSensitivity : JSPrim)
    (leftDate rightDate : JSDate) : Except JSErr (Int × Int) :=
  if dateUsage = JSVal.prim (.str "local") then
    if eachDateSensitivity = JSPrim.str "day" then
      .ok (leftDate.localView.date, rightDate.localView.date)
    else if eachDateSensitivity = JSPrim.str "dayPeriod" then
      .ok (Int.fdiv leftDate.localView.hours 12, Int.fdiv rightDate.localView.hours 12)
    else if eachDateSensitivity = JSPrim.str "era" then
      .ok (Int.sign leftDate.localView.fullYear, Int.sign rightDate.localView.fullYear)
    else if eachDateSensitivity = JSPrim.str "hour" then
      .ok (leftDate.localView.hours, rightDate.localView.hours)
    else if eachDateSensitivity = JSPrim.str "minute" then
      .ok (leftDate.localView.minutes, rightDate.localView.minutes)
    else if eachDateSensitivity = JSPrim.str "second" then
      .ok (leftDate.localView.seconds, rightDate.localView.seconds)
    else if eachDateSensitivity = JSPrim.str "month" then
      .ok (leftDate.localView.month, rightDate.localView.month)
    else if eachDateSensitivity = JSPrim.str "weekday" then
      .ok (leftDate.localView.day, rightDate.localView.day)
    else if eachDateSensitivity = JSPrim.str "year" then
      .ok (leftDate.localView.fullYear, rightDate.localView.fullYear)
    else if eachDateSensitivity = JSPrim.str "fractionalSecond" then
      .ok (leftDate.localView.milliseconds, rightDate.localView.milliseconds)
    else
      -- Error: Unhandled dateSensitivity value (source line 178).
      .error JSErr.genericError
  else if dateUsage = JSVal.prim (.str "utc") then
    if eachDateSensitivity = JSPrim.str "day" then
      .ok (leftDate.utcView.date, rightDate.utcView.date)
    else if eachDateSensitivity = JSPrim.str "dayPeriod" then
      .ok (Int.fdiv leftDate.utcView.hours 12, Int.fdiv rightDate.utcView.hours 12)
    else if eachDateSensitivity = JSPrim.str "era" then
      .ok (Int.sign leftDate.utcView.fullYear, Int.sign rightDate.utcView.fullYear)
    else if eachDateSensitivity = JSPrim.str "hour" then
      .ok (leftDate.utcView.hours, rightDate.utcView.hours)
    else if eachDateSensitivity = JSPrim.str "minute" then
      .ok (leftDate.utcView.minutes, rightDate.utcView.minutes)
    else if eachDateSensitivity = JSPrim.str "second" then
      .ok (leftDate.utcView.seconds, rightDate.utcView.seconds)
    else if eachDateSensitivity = JSPrim.str "month" then
      .ok (leftDate.utcView.month, rightDate.utcView.month)
    else if eachDateSensitivity = JSPrim.str "weekday" then
      .ok (leftDate.utcView.day, rightDate.utcView.day)
    else if eachDateSensitivity = JSPrim.str "year" then
      .ok (leftDate.utcView.fullYear, rightDate.utcView.fullYear)
    else if eachDateSensitivity = JSPrim.str "fractionalSecond" then
      .ok (leftDate.utcView.milliseconds, rightDate.utcView.milliseconds)
    else
      -- Error: Unhandled dateSensitivity value (source line 219).
      .error JSErr.genericError
  else
    -- The default branch on source line 224 reads `this.options.dateUsage`,
    -- and `this.options` is undefined, so the read itself raises a TypeError.
    .error JSErr.typeError

/-- The `.map` of source lines 134-227: the callback runs left to right
and its first raised error propagates. -/
def datePartPairs (dateUsage : JSVal) (tags : List JSPrim)
    (leftDate rightDate : JSDate) : Except JSErr (List (Int × Int)) :=
  match tags with
  | [] => .ok []
  | t :: ts =>
    match datePartPair dateUsage t leftDate rightDate with
    | .error e => .error e
    | .ok p =>
      match datePartPairs dateUsage ts leftDate rightDate with
      | .error e => .error e
      | .ok ps => .ok (p :: ps)

/-- `partPairs.reduce( datePartReducer, 0 )` (source line 228): a left
fold with initial accumulator `0`, propagating the first raised error. -/
def reduceDifference : JSVal → List (Int × Int) → Except JSErr JSVal
  | acc, [] => .ok acc
  | acc, pp :: pps =>
    match datePartReducer acc pp with
    | .error e => .error e
    | .ok acc2 => reduceDifference acc2 pps

/-- The `difference` variable of `compareUnbound` (source lines 129-237):
when both sides are valid dates (source lines 130-132), map the
configured tags to component pairs and reduce; otherwise compare the
`String`-renderings of the two inputs. -/
def differenceOf (cfg : Config) (leftDate rightDate : CompareInput) :
    Except JSErr Int :=
  match leftDate, rightDate with
  | .validDate ld, .validDate rd =>
    match datePartPairs cfg.dateUsage cfg.dateSensitivity ld rd with
    | .error e => .error e
    | .ok partPairs =>
      match reduceDifference (.prim (.num 0)) partPairs with
      | .error e => .error e
      | .ok dv => .ok dv.numOf
  | _, _ =>
    .ok (jsStringCompareSign (displayString leftDate) (displayString rightDate))

/-- `compareUnbound` (source lines 104-240): compute the difference, then
clamp it to `[-1, +1]` (source line 239). -/
def compareUnbound (cfg : Config) (leftDate rightDate : CompareInput) :
    Except JSErr Int :=
  match differenceOf cfg leftDate rightDate with
  | .error e => .error e
  | .ok difference => .ok (clampInt difference)

/-- The classification of source lines 130-131: both sides are `Date`
instances with a non-`NaN` time value. -/
def bothValid : CompareInput → CompareInput → Bool
  | .validDate _, .validDate _ => true
  | _, _ => false

/-- Error free mirror of `datePartPair` for one side, used to state what
the pairs are once the configuration is known to be validated (the junk
value `0` is only reached on tags the validated constructor rejects). -/
def datePartValue (dateUsage : JSVal) (eachDateSensitivity : JSPrim)
    (d : JSDate) : Int :=
  if dateUsage = JSVal.prim (.str "local") then
    if eachDateSensitivity = JSPrim.str "day" then d.localView.date
    else if eachDateSensitivity = JSPrim.str "dayPeriod" then Int.fdiv d.localView.hours 12
    else if eachDateSensitivity = JSPrim.str "era" then Int.sign d.localView.fullYear
    else if eachDateSensitivity = JSPrim.str "hour" then d.localView.hours
    else if eachDateSensitivity = JSPrim.str "minute" then d.localView.minutes
    else if eachDateSensitivity = JSPrim.str "second" then d.localView.seconds
    else if eachDateSensitivity = JSPrim.str "month" then d.localView.month
    else if eachDateSensitivity = JSPrim.str "weekday" then d.localView.day
    else if eachDateSensitivity = JSPrim.str "year" then d.localView.fullYear
    else if eachDateSensitivity = JSPrim.str "fractionalSecond" then d.localView.milliseconds
    else 0
  else if dateUsage = JSVal.prim (.str "utc") then
    if eachDateSensitivity = JSPrim.str "day" then d.utcView.date
    else if eachDateSensitivity = JSPrim.str "dayPeriod" then Int.fdiv d.utcView.hours 12
    else if eachDateSensitivity = JSPrim.str "era" then Int.sign d.utcView.fullYear
    else if eachDateSensitivity = JSPrim.str "hour" then d.utcView.hours
    else if eachDateSensitivity = JSPrim.str "minute" then d.utcView.minutes
    else if eachDateSensitivity = JSPrim.str "second" then d.utcView.seconds
    else if eachDateSensitivity = JSPrim.str "month" then d.utcView.month
    else if eachDateSensitivity = JSPrim.str "weekday" then d.utcView.day
    else if eachDateSensitivity = JSPrim.str "year" then d.utcView.fullYear
    else if eachDateSensitivity = JSPrim.str "fractionalSecond" then d.utcView.milliseconds
    else 0
  else 0

/-- Integer form of the reducer once the accumulator is known to stay a
number. -/
def datePartReducerInt (difference : Int) (partPair : Int × Int) : Int :=
  if difference = 0 then partPair.1 - partPair.2 else difference

/-- Modelled from the wording of the specification, for the refinement
claim: the short circuiting lexicographic comparison, whose result is the
subtraction at the first pair that differs, and `0` when every pair is
equal. -/
def shortCircuitCompare : List (Int × Int) → Int
  | [] => 0
  | pp :: pps => if pp.1 - pp.2 ≠ 0 then pp.1 - pp.2 else shortCircuitCompare pps

/-- The list of component pairs a validated configuration extracts from
two valid dates, expressed with the error free mirror `datePartValue`. -/
def configPartPairs (cfg : Config) (leftDate rightDate : JSDate) : List (Int × Int) :=
  cfg.dateSensitivity.map
    (fun t => (datePartValue cfg.dateUsage t leftDate, datePartValue cfg.dateUsage t rightDate))

/-- The configuration produced by `new DateCollator()`. -/
def defaultConfig : Config :=
  ⟨defaultDateSensitivity.map JSPrim.str, JSVal.prim (.str "local")⟩

/-- The `Date` constructed by `new Date( 2020, 2, 23, 9, 0 )` in a
GMT-0500 zone: Monday, March 23 2020, 09:00 local time. -/
def mondayDate : JSDate :=
  ⟨⟨2020, 2, 23, 1, 9, 0, 0, 0⟩, ⟨2020, 2, 23, 1, 14, 0, 0, 0⟩,
   " GMT-0500 (Central Daylight Time)"⟩

/-- The `Date` constructed by `new Date( 2026, 2, 23, 11, 0 )` in a
GMT-0500 zone: Monday, March 23 2026, 11:00 local time. -/
def laterMondayDate : JSDate :=
  ⟨⟨2026, 2, 23, 1, 11, 0, 0, 0⟩, ⟨2026, 2, 23, 1, 16, 0, 0, 0⟩,
   " GMT-0500 (Central Daylight Time)"⟩

/-- The `Date` constructed by `new Date( 2020, 2, 27, 9, 0 )` in a
GMT-0500 zone: Friday, March 27 2020, 09:00 local time.  Its string
rendering begins with "Fri". -/
def fridayDate : JSDate :=
  ⟨⟨2020, 2, 27, 5, 9, 0, 0, 0⟩, ⟨2020, 2, 27, 5, 14, 0, 0, 0⟩,
   " GMT-0500 (Central Daylight Time)"⟩

/-! ### String order lemmas -/

/-- Appending strings appends their character lists. -/
theorem string_data_append (s t : String) : (s ++ t).data = s.data ++ t.data := by
  cases s; cases t; rfl

/-- Lexicographic comparison is decided at the first character when the
first characters differ (smaller side). -/
theorem lexLt_head_lt (a b : Char) (as bs : List Char) (h : a.toNat < b.toNat) :
    lexLt (a :: as) (b :: bs) = true := by
  unfold lexLt
  rw [if_pos h]

/-- Lexicographic comparison is decided at the first character when the
first characters differ (larger side). -/
theorem lexLt_head_gt (a b : Char) (as bs : List Char) (h : b.toNat < a.toNat) :
    lexLt (a :: as) (b :: bs) = false := by
  unfold lexLt
  rw [if_neg (by omega), if_pos h]

/-- The string fallback yields `-1` when the first characters decide the
comparison in favor of the left string. -/
theorem jsStringCompareSign_of_head_lt (a b : String) (ca cb : Char)
    (as bs : List Char) (ha : a.data = ca :: as) (hb : b.data = cb :: bs)
    (h : ca.toNat < cb.toNat) : jsStringCompareSign a b = -1 := by
  unfold jsStringCompareSign
  rw [ha, hb, lexLt_head_lt _ _ _ _ h]
  simp

/-- The string fallback yields `1` when the first characters decide the
comparison in favor of the right string. -/
theorem jsStringCompareSign_of_head_gt (a b : String) (ca cb : Char)
    (as bs : List Char) (ha : a.data = ca :: as) (hb : b.data = cb :: bs)
    (h : cb.toNat < ca.toNat) : jsStringCompareSign a b = 1 := by
  unfold jsStringCompareSign
  rw [ha, hb, lexLt_head_gt _ _ _ _ h, lexLt_head_lt _ _ _ _ h]
  simp

/-- The `toString` rendering of a valid date starts with the weekday
name, whose first character lies between the codepoints of `F` (70) and
`W` (87), and away from Friday at or above `M` (77). -/
theorem weekdayAbbrev_head (w : Int) (h0 : 0 ≤ w) (h6 : w ≤ 6) :
    ∃ c cs, (weekdayAbbrev w).data = c :: cs ∧ 70 ≤ c.toNat ∧ c.toNat ≤ 87 ∧
      (w ≠ 5 → 77 ≤ c.toNat) := by
  interval_cases w
  · exact ⟨'S', ['u', 'n'], rfl, by decide, by decide, fun _ => by decide⟩
  · exact ⟨'M', ['o', 'n'], rfl, by decide, by decide, fun _ => by decide⟩
  · exact ⟨'T', ['u', 'e'], rfl, by decide, by decide, fun _ => by decide⟩
  · exact ⟨'W', ['e', 'd'], rfl, by decide, by decide, fun _ => by decide⟩
  · exact ⟨'T', ['h', 'u'], rfl, by decide, by decide, fun _ => by decide⟩
  · exact ⟨'F', ['r', 'i'], rfl, by decide, by decide, fun h => absurd rfl h⟩
  · exact ⟨'S', ['a', 't'], rfl, by decide, by decide, fun _ => by decide⟩

/-- First character bounds for the full `toString` rendering of a
well-formed date. -/
theorem jsDateToString_head (d : JSDate) (h0 : 0 ≤ d.localView.day)
    (h6 : d.localView.day ≤ 6) :
    ∃ c cs, (jsDateToString d).data = c :: cs ∧ 70 ≤ c.toNat ∧ c.toNat ≤ 87 ∧
      (d.localView.day ≠ 5 → 77 ≤ c.toNat) := by
  obtain ⟨c, cs, hd, h1, h2, h3⟩ := weekdayAbbrev_head d.localView.day h0 h6
  exact ⟨c, cs ++ (jsDateRest d).data,
    by rw [jsDateToString, string_data_append, hd]; rfl, h1, h2, h3⟩

/-! ### Valid date branch lemmas -/

/-- On a validated usage value and recognized tag, the switch never
reaches a default branch and extracts the mirrored component pair. -/
theorem datePartPair_ok_of_valid (u : JSVal) (t : JSPrim) (l r : JSDate)
    (hu : u = JSVal.prim (.str "local") ∨ u = JSVal.prim (.str "utc"))
    (ht : recognizedSensitivity t = true) :
    datePartPair u t l r = Except.ok (datePartValue u t l, datePartValue u t r) := by
  obtain ⟨s, hs, rfl⟩ : ∃ s, s ∈ dateSensitivityValues ∧ t = JSPrim.str s := by
    cases t with
    | str s =>
      refine ⟨s, ?_, rfl⟩
      simpa [recognizedSensitivity] using ht
    | num n => simp [recognizedSensitivity] at ht
    | bool b => simp [recognizedSensitivity] at ht
    | nullV => simp [recognizedSensitivity] at ht
    | undef => simp [recognizedSensitivity] at ht
  rcases hu with rfl | rfl <;> fin_cases hs <;> rfl


/-- On a validated configuration the whole `.map` succeeds and produces
the mirrored pair list. -/
theorem datePartPairs_ok_of_valid (u : JSVal) (tags : List JSPrim) (l r : JSDate)
    (hu : u = JSVal.prim (.str "local") ∨ u = JSVal.prim (.str "utc"))
    (ht : ∀ t ∈ tags, recognizedSensitivity t = true) :
    datePartPairs u tags l r
      = Except.ok (tags.map (fun t => (datePartValue u t l, datePartValue u t r))) := by
  induction tags with
  | nil => rfl
  | cons t ts ih =>
    have h1 := datePartPair_ok_of_valid u t l r hu (ht t (by simp))
    have h2 := ih (fun t' ht' => ht t' (by simp [ht']))
    simp [datePartPairs, h1, h2]

/-- The reduce of source line 228 never raises once started from the
number `0`, and computes the integer left fold of the reducer. -/
theorem reduceDifference_num (pps : List (Int × Int)) (n : Int) :
    reduceDifference (.prim (.num n)) pps
      = Except.ok (.prim (.num (pps.foldl datePartReducerInt n))) := by
  induction pps generalizing n with
  | nil => rfl
  | cons pp pps ih =>
    show reduceDifference (.prim (.num (if n = 0 then pp.1 - pp.2 else n))) pps = _
    rw [ih]
    rfl

/-- On a validated configuration, comparing two valid dates succeeds and
returns the clamped fold of the mirrored pair list. -/
theorem compareUnbound_valid_of_config (cfg : Config) (l r : JSDate)
    (hu : cfg.dateUsage = JSVal.prim (.str "local") ∨ cfg.dateUsage = JSVal.prim (.str "utc"))
    (ht : ∀ t ∈ cfg.dateSensitivity, recognizedSensitivity t = true) :
    compareUnbound cfg (.validDate l) (.validDate r)
      = Except.ok (clampInt ((configPartPairs cfg l r).foldl datePartReducerInt 0)) := by
  simp only [compareUnbound, differenceOf]
  rw [datePartPairs_ok_of_valid _ _ _ _ hu ht]
  simp only [reduceDifference_num, JSVal.numOf, configPartPairs]

/-- When at least one side is not a valid date, the comparison is the
clamped string fallback. -/
theorem compareUnbound_string_eq (cfg : Config) (l r : CompareInput)
    (h : bothValid l r = false) :
    compareUnbound cfg l r
      = Except.ok (clampInt (jsStringCompareSign (displayString l) (displayString r))) := by
  cases l <;> cases r <;> first | rfl | simp [bothValid] at h

/-! ### Clamp and fold lemmas -/

/-- Clamping an integer to `[-1, +1]` is taking its sign. -/
theorem clampInt_eq_sign (d : Int) : clampInt d = Int.sign d := by
  unfold clampInt
  rcases lt_trichotomy d 0 with h | rfl | h
  · rw [Int.sign_eq_neg_one_of_neg h]; omega
  · decide
  · rw [Int.sign_eq_one_of_pos h]; omega

/-- The clamp is an odd function. -/
theorem clampInt_neg (d : Int) : clampInt (-d) = -clampInt d := by
  unfold clampInt; omega

/-- The clamp only produces `-1`, `0` or `1`. -/
theorem clampInt_mem (d : Int) : clampInt d = -1 ∨ clampInt d = 0 ∨ clampInt d = 1 := by
  unfold clampInt; omega

/-- The string fallback only produces `-1`, `0` or `1`. -/
theorem jsStringCompareSign_cases (a b : String) :
    jsStringCompareSign a b = -1 ∨ jsStringCompareSign a b = 0 ∨
      jsStringCompareSign a b = 1 := by
  unfold jsStringCompareSign
  split_ifs <;> simp

/-- Clamping the string fallback changes nothing. -/
theorem clampInt_jsStringCompareSign (a b : String) :
    clampInt (jsStringCompareSign a b) = jsStringCompareSign a b := by
  rcases jsStringCompareSign_cases a b with h | h | h <;> rw [h] <;> decide

/-- When at least one side is not a valid date, the comparison is exactly
the string fallback (the clamp is invisible on it). -/
theorem compareUnbound_string_simplified (cfg : Config) (l r : CompareInput)
    (h : bothValid l r = false) :
    compareUnbound cfg l r
      = Except.ok (jsStringCompareSign (displayString l) (displayString r)) := by
  rw [compareUnbound_string_eq cfg l r h, clampInt_jsStringCompareSign]

/-- A non-zero accumulator is returned unchanged by the whole fold
(source line 125 skips the recalculation). -/
theorem foldl_reducer_sticky (pps : List (Int × Int)) (n : Int) (h : n ≠ 0) :
    pps.foldl datePartReducerInt n = n := by
  induction pps with
  | nil => rfl
  | cons pp pps ih => simp [List.foldl_cons, datePartReducerInt, h, ih]

/-- The implemented full fold equals the short circuiting comparison of
the specification. -/
theorem foldl_reducer_eq_shortCircuit (pps : List (Int × Int)) :
    pps.foldl datePartReducerInt 0 = shortCircuitCompare pps := by
  induction pps with
  | nil => rfl
  | cons pp pps ih =>
    show pps.foldl datePartReducerInt (datePartReducerInt 0 pp) = _
    by_cases hd : pp.1 - pp.2 = 0
    · simp [datePartReducerInt, hd, ih, shortCircuitCompare]
    · simp [datePartReducerInt, hd, shortCircuitCompare,
        foldl_reducer_sticky pps _ hd]

/-- All pairs equal means the short circuit comparison is `0`. -/
theorem shortCircuitCompare_eq_zero (pps : List (Int × Int))
    (h : ∀ pp ∈ pps, pp.1 = pp.2) : shortCircuitCompare pps = 0 := by
  induction pps with
  | nil => rfl
  | cons pp pps ih =>
    have h1 : pp.1 - pp.2 = 0 := by
      have := h pp (by simp)
      omega
    simp [shortCircuitCompare, h1, ih (fun pp' hpp' => h pp' (by simp [hpp']))]

/-- Swapping every pair negates the fold, for opposite accumulators. -/
theorem foldl_reducer_swap (pps : List (Int × Int)) (n : Int) :
    (pps.map (fun pp => (pp.2, pp.1))).foldl datePartReducerInt (-n)
      = -(pps.foldl datePartReducerInt n) := by
  induction pps generalizing n with
  | nil => rfl
  | cons pp pps ih =>
    simp only [List.map_cons, List.foldl_cons]
    by_cases hn : n = 0
    · subst hn
      have h2 : datePartReducerInt (-0) (pp.2, pp.1) = -(datePartReducerInt 0 pp) := by
        simp [datePartReducerInt]
      rw [h2]
      exact ih _
    · have h2 : datePartReducerInt (-n) (pp.2, pp.1) = -n := by
        simp [datePartReducerInt]
        omega
      have h3 : datePartReducerInt n pp = n := by
        simp [datePartReducerInt, hn]
      rw [h2, h3]
      exact ih _

/-! ### Constructor validation lemmas -/

/-- A successfully validated configuration carries only recognized
sensitivity tags and a recognized usage value. -/
theorem validate_ok_valid (sensVal usageVal : JSVal) (cfg : Config)
    (h : validate sensVal usageVal = Except.ok cfg) :
    (∀ t ∈ cfg.dateSensitivity, recognizedSensitivity t = true) ∧
      (cfg.dateUsage = JSVal.prim (.str "local") ∨
        cfg.dateUsage = JSVal.prim (.str "utc")) := by
  unfold validate at h
  split_ifs at h with h1 h2 h3
  injection h with h4
  subst h4
  constructor
  · intro t ht
    cases hr : recognizedSensitivity t with
    | true => rfl
    | false => exact absurd (List.any_eq_true.mpr ⟨t, ht, by simp [hr]⟩) h2
  · have h5 : recognizedUsage usageVal = true := by
      cases hr : recognizedUsage usageVal with
      | true => rfl
      | false => exact absurd hr h3
    simpa [recognizedUsage] using h5

/-- A successfully constructed configuration carries only recognized
sensitivity tags and a recognized usage value. -/
theorem construct_ok_valid (options : Option JSOptions) (cfg : Config)
    (h : construct options = Except.ok cfg) :
    (∀ t ∈ cfg.dateSensitivity, recognizedSensitivity t = true) ∧
      (cfg.dateUsage = JSVal.prim (.str "local") ∨
        cfg.dateUsage = JSVal.prim (.str "utc")) :=
  validate_ok_valid _ _ cfg h

/-! ### Fallback category lemmas -/

/-- The weekday bounds needed from well-formedness. -/
theorem JSDate.WF.day_bounds (d : JSDate) (h : d.WF) :
    0 ≤ d.localView.day ∧ d.localView.day ≤ 6 := by
  obtain ⟨⟨_, _, _, _, h5, h6, _⟩, _⟩ := h
  exact ⟨h5, h6⟩

/-- A well-formed valid date compares below `null` in the fallback:
its text starts with a weekday letter, below the codepoint of `n`. -/
theorem compare_valid_lt_null (cfg : Config) (d : JSDate) (h : d.WF) :
    compareUnbound cfg (.validDate d) .nullV = Except.ok (-1) := by
  obtain ⟨hb0, hb6⟩ := JSDate.WF.day_bounds d h
  obtain ⟨c, cs, hd, _, h2, _⟩ := jsDateToString_head d hb0 hb6
  rw [compareUnbound_string_simplified cfg (.validDate d) .nullV rfl]
  simp only [displayString]
  rw [jsStringCompareSign_of_head_lt (jsDateToString d) "null" c 'n' cs
    ['u', 'l', 'l'] hd rfl (by have hn : 'n'.toNat = 110 := rfl; omega)]

/-- A well-formed valid date compares below `undefined` in the fallback. -/
theorem compare_valid_lt_undefined (cfg : Config) (d : JSDate) (h : d.WF) :
    compareUnbound cfg (.validDate d) .undef = Except.ok (-1) := by
  obtain ⟨hb0, hb6⟩ := JSDate.WF.day_bounds d h
  obtain ⟨c, cs, hd, _, h2, _⟩ := jsDateToString_head d hb0 hb6
  rw [compareUnbound_string_simplified cfg (.validDate d) .undef rfl]
  simp only [displayString]
  rw [jsStringCompareSign_of_head_lt (jsDateToString d) "undefined" c 'u' cs
    ['n', 'd', 'e', 'f', 'i', 'n', 'e', 'd'] hd rfl
    (by have hn : 'u'.toNat = 117 := rfl; omega)]

/-- Reversed direction: `null` compares above a well-formed valid date. -/
theorem compare_null_gt_valid (cfg : Config) (d : JSDate) (h : d.WF) :
    compareUnbound cfg .nullV (.validDate d) = Except.ok 1 := by
  obtain ⟨hb0, hb6⟩ := JSDate.WF.day_bounds d h
  obtain ⟨c, cs, hd, _, h2, _⟩ := jsDateToString_head d hb0 hb6
  rw [compareUnbound_string_simplified cfg .nullV (.validDate d) rfl]
  simp only [displayString]
  rw [jsStringCompareSign_of_head_gt "null" (jsDateToString d) 'n' c
    ['u', 'l', 'l'] cs rfl hd (by have hn : 'n'.toNat = 110 := rfl; omega)]

/-- Reversed direction: `undefined` compares above a well-formed valid
date. -/
theorem compare_undefined_gt_valid (cfg : Config) (d : JSDate) (h : d.WF) :
    compareUnbound cfg .undef (.validDate d) = Except.ok 1 := by
  obtain ⟨hb0, hb6⟩ := JSDate.WF.day_bounds d h
  obtain ⟨c, cs, hd, _, h2, _⟩ := jsDateToString_head d hb0 hb6
  rw [compareUnbound_string_simplified cfg .undef (.validDate d) rfl]
  simp only [displayString]
  rw [jsStringCompareSign_of_head_gt "undefined" (jsDateToString d) 'u' c
    ['n', 'd', 'e', 'f', 'i', 'n', 'e', 'd'] cs rfl hd
    (by have hn : 'u'.toNat = 117 := rfl; omega)]

/-- An invalid date compares below a well-formed valid date that does not
fall on a Friday: "Invalid Date" starts with `I` (73), below `M` (77) but
above `F` (70). -/
theorem compare_invalid_lt_valid_nonfriday (cfg : Config) (d : JSDate)
    (h : d.WF) (h5 : d.localView.day ≠ 5) :
    compareUnbound cfg .invalidDate (.validDate d) = Except.ok (-1) := by
  obtain ⟨hb0, hb6⟩ := JSDate.WF.day_bounds d h
  obtain ⟨c, cs, hd, _, _, h3⟩ := jsDateToString_head d hb0 hb6
  rw [compareUnbound_string_simplified cfg .invalidDate (.validDate d) rfl]
  simp only [displayString]
  rw [jsStringCompareSign_of_head_lt "Invalid Date" (jsDateToString d) 'I' c
    ['n', 'v', 'a', 'l', 'i', 'd', ' ', 'D', 'a', 't', 'e'] cs rfl hd
    (by have hn : 'I'.toNat = 73 := rfl; have := h3 h5; omega)]

/-- Reversed direction: a well-formed non-Friday valid date compares
above an invalid date. -/
theorem compare_valid_nonfriday_gt_invalid (cfg : Config) (d : JSDate)
    (h : d.WF) (h5 : d.localView.day ≠ 5) :
    compareUnbound cfg (.validDate d) .invalidDate = Except.ok 1 := by
  obtain ⟨hb0, hb6⟩ := JSDate.WF.day_bounds d h
  obtain ⟨c, cs, hd, _, _, h3⟩ := jsDateToString_head d hb0 hb6
  rw [compareUnbound_string_simplified cfg (.validDate d) .invalidDate rfl]
  simp only [displayString]
  rw [jsStringCompareSign_of_head_gt (jsDateToString d) "Invalid Date" c 'I' cs
    ['n', 'v', 'a', 'l', 'i', 'd', ' ', 'D', 'a', 't', 'e'] hd rfl
    (by have hn : 'I'.toNat = 73 := rfl; have := h3 h5; omega)]

/-! ### Claim theorems -/

/-- C1: the claim states an unrecognized `dateSensitivity` element fails
construction with a `RangeError` citing the offending value; the code
instead raises a `ReferenceError`, because the `RangeError` message on
source line 74 references the `.some` callback parameter outside its
scope.  This theorem evaluates the constructor at the failing input, a call
passing the option `dateSensitivity: ['millisecond']`. -/
theorem C1_unrecognized_tag_raises_reference_error :
    construct (some ⟨JSVal.arr [JSPrim.str "millisecond"], JSVal.prim .undef⟩)
      = Except.error JSErr.referenceError := by decide

/-- C2 counterexample: the claim states every valid date compares above
every invalid date, for any configuration.  For a valid date falling on a
Friday the rendering "Fri ..." sorts before "Invalid Date" (`F` is
codepoint 70, `I` is 73), so `compare( invalid, friday ) = +1` and
`compare( friday, invalid ) = -1`, refuting both directions of the claim
at the concrete input `new Date( 2020, 2, 27, 9, 0 )`. -/
theorem C2_counterexample_friday :
    compareUnbound defaultConfig .invalidDate (.validDate fridayDate)
        = Except.ok 1 ∧
      compareUnbound defaultConfig (.validDate fridayDate) .invalidDate
        = Except.ok (-1) := by
  exact ⟨by decide, by decide⟩

/-- C2 amended: for every configuration and every well-formed valid date
whose local weekday is not Friday, the invalid date compares below it and
it compares above the invalid date. -/
theorem C2_invalid_sorts_before_nonfriday_valid (cfg : Config) (d : JSDate)
    (h : d.WF) (h5 : d.localView.day ≠ 5) :
    compareUnbound cfg .invalidDate (.validDate d) = Except.ok (-1) ∧
      compareUnbound cfg (.validDate d) .invalidDate = Except.ok 1 :=
  ⟨compare_invalid_lt_valid_nonfriday cfg d h h5,
    compare_valid_nonfriday_gt_invalid cfg d h h5⟩

/-- Witness for the amended C2 at a concrete Monday date. -/
theorem C2_invalid_sorts_before_nonfriday_valid_witness :
    compareUnbound defaultConfig .invalidDate (.validDate mondayDate)
        = Except.ok (-1) ∧
      compareUnbound defaultConfig (.validDate mondayDate) .invalidDate
        = Except.ok 1 :=
  C2_invalid_sorts_before_nonfriday_valid defaultConfig mondayDate
    (by decide) (by decide)

/-- C3: for every successfully constructed configuration and every pair
of inputs of any kind, the comparison returns a value and never raises:
the reducer type check and the unhandled tag and usage default branches
are unreachable. -/
theorem C3_compare_never_raises (options : Option JSOptions) (cfg : Config)
    (h : construct options = Except.ok cfg) (leftDate rightDate : CompareInput) :
    ∃ k, compareUnbound cfg leftDate rightDate = Except.ok k := by
  obtain ⟨ht, hu⟩ := construct_ok_valid options cfg h
  cases leftDate <;> cases rightDate <;>
    first
      | exact ⟨_, compareUnbound_valid_of_config cfg _ _ hu ht⟩
      | exact ⟨_, rfl⟩

/-- Witness for C3 at the default configuration and a mixed input pair. -/
theorem C3_compare_never_raises_witness :
    construct none = Except.ok defaultConfig ∧
      ∃ k, compareUnbound defaultConfig (.other "foo") .nullV = Except.ok k :=
  ⟨by decide, C3_compare_never_raises none defaultConfig (by decide) _ _⟩

/-- C4 counterexample: the claim states any supplied non-array
`dateSensitivity` fails with a `TypeError`; but a falsy supplied value
(here `false`) is replaced by the default through `||` on source line 63
before the array check, so construction succeeds. -/
theorem C4_counterexample_falsy_non_array :
    (JSVal.prim (JSPrim.bool false)).isArray = false ∧
      construct (some ⟨JSVal.prim (.bool false), JSVal.prim .undef⟩)
        = Except.ok defaultConfig :=
  ⟨rfl, by decide⟩

/-- C4 amended: a supplied `dateSensitivity` that is truthy and not an
array fails construction with a `TypeError`, whatever the usage option. -/
theorem C4_truthy_non_array_raises_type_error (v u : JSVal)
    (htru : v.truthy = true) (harr : v.isArray = false) :
    construct (some ⟨v, u⟩) = Except.error JSErr.typeError := by
  simp only [construct, Option.getD]
  rw [if_pos htru]
  unfold validate
  rw [if_pos harr]

/-- Witness for the amended C4 at the string value `year`. -/
theorem C4_truthy_non_array_raises_type_error_witness :
    (JSVal.prim (JSPrim.str "year")).truthy = true ∧
      (JSVal.prim (JSPrim.str "year")).isArray = false ∧
      construct (some ⟨JSVal.prim (.str "year"), JSVal.prim .undef⟩)
        = Except.error JSErr.typeError :=
  ⟨by decide, by decide,
    C4_truthy_non_array_raises_type_error _ _ (by decide) (by decide)⟩

/-- C5: under every successfully constructed configuration, the
implemented compute-all-pairs-then-reduce comparison of two valid dates
equals the sign of the short circuiting lexicographic comparison of the
specification, and returns `0` when all configured pairs are equal. -/
theorem C5_reduce_equals_short_circuit (options : Option JSOptions)
    (cfg : Config) (h : construct options = Except.ok cfg) (l r : JSDate) :
    compareUnbound cfg (.validDate l) (.validDate r)
        = Except.ok (Int.sign (shortCircuitCompare (configPartPairs cfg l r))) ∧
      ((∀ pp ∈ configPartPairs cfg l r, pp.1 = pp.2) →
        compareUnbound cfg (.validDate l) (.validDate r) = Except.ok 0) := by
  obtain ⟨ht, hu⟩ := construct_ok_valid options cfg h
  have hc := compareUnbound_valid_of_config cfg l r hu ht
  constructor
  · rw [hc, foldl_reducer_eq_shortCircuit, clampInt_eq_sign]
  · intro hall
    rw [hc, foldl_reducer_eq_shortCircuit, shortCircuitCompare_eq_zero _ hall]
    rfl

/-- Witness for C5 at the default configuration and two Monday dates. -/
theorem C5_reduce_equals_short_circuit_witness :
    compareUnbound defaultConfig (.validDate mondayDate) (.validDate laterMondayDate)
        = Except.ok (Int.sign (shortCircuitCompare
            (configPartPairs defaultConfig mondayDate laterMondayDate))) ∧
      ((∀ pp ∈ configPartPairs defaultConfig mondayDate laterMondayDate, pp.1 = pp.2) →
        compareUnbound defaultConfig (.validDate mondayDate) (.validDate laterMondayDate)
          = Except.ok 0) :=
  C5_reduce_equals_short_circuit none defaultConfig (by decide)
    mondayDate laterMondayDate

/-- C6: under any configuration value, comparing two absent arguments
returns `0`; a well-formed valid date compares below `null` and below
`undefined`; `null` compares below `undefined` and above a valid date;
`undefined` compares above `null`; and whenever at least one side is not
a valid date the result is exactly the sign of the lexicographic
comparison of the two canonical string renderings. -/
theorem C6_fallback_orderings (cfg : Config) (d : JSDate) (h : d.WF) :
    compareUnbound cfg .undef .undef = Except.ok 0 ∧
      compareUnbound cfg (.validDate d) .nullV = Except.ok (-1) ∧
      compareUnbound cfg (.validDate d) .undef = Except.ok (-1) ∧
      compareUnbound cfg .nullV .undef = Except.ok (-1) ∧
      compareUnbound cfg .nullV (.validDate d) = Except.ok 1 ∧
      compareUnbound cfg .undef .nullV = Except.ok 1 ∧
      ∀ l r : CompareInput, bothValid l r = false →
        compareUnbound cfg l r
          = Except.ok (jsStringCompareSign (displayString l) (displayString r)) :=
  ⟨rfl, compare_valid_lt_null cfg d h, compare_valid_lt_undefined cfg d h,
    rfl, compare_null_gt_valid cfg d h, rfl,
    fun l r hb => compareUnbound_string_simplified cfg l r hb⟩

/-- Witness for C6 at the default configuration and a Monday date. -/
theorem C6_fallback_orderings_witness :
    compareUnbound defaultConfig .undef .undef = Except.ok 0 ∧
      compareUnbound defaultConfig (.validDate mondayDate) .nullV = Except.ok (-1) ∧
      compareUnbound defaultConfig (.validDate mondayDate) .undef = Except.ok (-1) ∧
      compareUnbound defaultConfig .nullV .undef = Except.ok (-1) ∧
      compareUnbound defaultConfig .nullV (.validDate mondayDate) = Except.ok 1 ∧
      compareUnbound defaultConfig .undef .nullV = Except.ok 1 ∧
      ∀ l r : CompareInput, bothValid l r = false →
        compareUnbound defaultConfig l r
          = Except.ok (jsStringCompareSign (displayString l) (displayString r)) :=
  C6_fallback_orderings defaultConfig mondayDate (by decide)

/-- C7 counterexample: the claim states a valid date compares above
`null` and `null` compares above `undefined`; the code gives the opposite
signs, because the date rendering "Mon ..." sorts before "null" and
"null" sorts before "undefined" in code unit order. -/
theorem C7_counterexample_direction :
    compareUnbound defaultConfig (.validDate mondayDate) .nullV = Except.ok (-1) ∧
      compareUnbound defaultConfig .nullV .undef = Except.ok (-1) :=
  ⟨by decide, by decide⟩

/-- C7 amended: in the fallback order a well-formed valid date sorts
before the text for `null`, and the text for `null` sorts before the text
for absent: `compare( valid, null ) < 0` and
`compare( null, undefined ) < 0`. -/
theorem C7_valid_before_null_before_absent (cfg : Config) (d : JSDate)
    (h : d.WF) :
    compareUnbound cfg (.validDate d) .nullV = Except.ok (-1) ∧
      compareUnbound cfg .nullV .undef = Except.ok (-1) :=
  ⟨compare_valid_lt_null cfg d h, rfl⟩

/-- Witness for the amended C7 at a concrete Monday date. -/
theorem C7_valid_before_null_before_absent_witness :
    compareUnbound defaultConfig (.validDate mondayDate) .nullV = Except.ok (-1) ∧
      compareUnbound defaultConfig .nullV .undef = Except.ok (-1) :=
  C7_valid_before_null_before_absent defaultConfig mondayDate (by decide)

/-- C8: whatever the configuration and the two inputs, a returned
comparison value is `-1`, `0` or `+1`: the final clamp bounds any
intermediate difference magnitude. -/
theorem C8_result_in_sign_range (cfg : Config) (leftDate rightDate : CompareInput)
    (k : Int) (h : compareUnbound cfg leftDate rightDate = Except.ok k) :
    k = -1 ∨ k = 0 ∨ k = 1 := by
  unfold compareUnbound at h
  cases hD : differenceOf cfg leftDate rightDate with
  | error e => rw [hD] at h; simp at h
  | ok d =>
    rw [hD] at h
    simp only [Except.ok.injEq] at h
    exact h ▸ clampInt_mem d

/-- Witness for C8 at two dates whose year difference is 6. -/
theorem C8_result_in_sign_range_witness :
    compareUnbound defaultConfig (.validDate laterMondayDate) (.validDate mondayDate)
        = Except.ok 1 ∧
      ((1 : Int) = -1 ∨ (1 : Int) = 0 ∨ (1 : Int) = 1) :=
  ⟨by decide, C8_result_in_sign_range defaultConfig (.validDate laterMondayDate)
    (.validDate mondayDate) 1 (by decide)⟩

/-- C9: for valid dates compared both ways under one successfully
constructed configuration, the returned signs are opposite. -/
theorem C9_antisymmetry (options : Option JSOptions) (cfg : Config)
    (h : construct options = Except.ok cfg) (a b : JSDate) (ka kb : Int)
    (h1 : compareUnbound cfg (.validDate a) (.validDate b) = Except.ok ka)
    (h2 : compareUnbound cfg (.validDate b) (.validDate a) = Except.ok kb) :
    Int.sign ka = -Int.sign kb := by
  obtain ⟨ht, hu⟩ := construct_ok_valid options cfg h
  rw [compareUnbound_valid_of_config cfg a b hu ht] at h1
  rw [compareUnbound_valid_of_config cfg b a hu ht] at h2
  injection h1 with e1
  injection h2 with e2
  subst e1
  subst e2
  have hswap : configPartPairs cfg b a
      = (configPartPairs cfg a b).map (fun pp => (pp.2, pp.1)) := by
    unfold configPartPairs
    rw [List.map_map]
    rfl
  rw [hswap]
  rw [show ((configPartPairs cfg a b).map (fun pp => (pp.2, pp.1))).foldl
        datePartReducerInt 0
      = -((configPartPairs cfg a b).foldl datePartReducerInt 0) by
    simpa using foldl_reducer_swap (configPartPairs cfg a b) 0]
  rw [clampInt_neg, Int.sign_neg, neg_neg]

/-- Witness for C9 at the default configuration and two Monday dates. -/
theorem C9_antisymmetry_witness :
    compareUnbound defaultConfig (.validDate mondayDate) (.validDate laterMondayDate)
        = Except.ok (-1) ∧
      compareUnbound defaultConfig (.validDate laterMondayDate) (.validDate mondayDate)
        = Except.ok 1 ∧
      Int.sign (-1) = -Int.sign 1 :=
  ⟨by decide, by decide,
    C9_antisymmetry none defaultConfig (by decide) mondayDate laterMondayDate
      (-1) 1 (by decide) (by decide)⟩

/-- C10: an empty `dateSensitivity` array is accepted (it is truthy, an
array, and vacuously free of unrecognized elements), and the resulting
comparator returns `0` on every pair of valid dates, for an absent,
`local` or `utc` usage option. -/
theorem C10_empty_sensitivity_compares_zero (u : JSVal)
    (hu : u = JSVal.prim .undef ∨ u = JSVal.prim (.str "local") ∨
      u = JSVal.prim (.str "utc")) :
    ∃ cfg, construct (some ⟨JSVal.arr [], u⟩) = Except.ok cfg ∧
      cfg.dateSensitivity = [] ∧
      ∀ l r : JSDate,
        compareUnbound cfg (.validDate l) (.validDate r) = Except.ok 0 := by
  rcases hu with rfl | rfl | rfl
  · exact ⟨⟨[], JSVal.prim (.str "local")⟩, by decide, rfl, fun l r => rfl⟩
  · exact ⟨⟨[], JSVal.prim (.str "local")⟩, by decide, rfl, fun l r => rfl⟩
  · exact ⟨⟨[], JSVal.prim (.str "utc")⟩, by decide, rfl, fun l r => rfl⟩

/-- Witness for C10 at the `utc` usage option. -/
theorem C10_empty_sensitivity_compares_zero_witness :
    ∃ cfg, construct (some ⟨JSVal.arr [], JSVal.prim (.str "utc")⟩)
        = Except.ok cfg ∧
      cfg.dateSensitivity = [] ∧
      ∀ l r : JSDate,
        compareUnbound cfg (.validDate l) (.validDate r) = Except.ok 0 :=
  C10_empty_sensitivity_compares_zero (JSVal.prim (.str "utc")) (by decide)
